import Mathlib

/-!
Verification of the Hermie environmental monitoring system.

This file gives a shallow embedding of the core logic of the repository:

* `check_alert` (src/common.py) — the pure threshold classifier;
* `should_buzz` and the buzz step of the client main loop (src/client.py) —
  the cooldown-gated actuation decision;
* `reader_loop` one-cycle semantics (src/api.py) — bounded-retry sensor read
  and the shared-state update, modelled as a list of atomic state actions
  mirroring the Python statements;
* `set_device` (src/api.py) — the device control handler with its
  validation, hardware write and flag update.

Python floats are modelled as exact rationals (`ℚ`); the numeric threshold
comparisons of the source only involve values with short decimal
expansions, so no floating-point rounding behaviour is load-bearing.
Alert message strings carrying formatted numbers are abstracted to the
branch (`AlertKind`) that produced them, together with the constant LCD
text of that branch; the control-flow of every function is translated
statement by statement from the source.
-/

namespace Hermie

/-- Temperature high threshold from src/common.py (`TEMP_HIGH_THRESHOLD = 85.0`). -/
def TEMP_HIGH_THRESHOLD : ℚ := 85

/-- Temperature low threshold from src/common.py (`TEMP_LOW_THRESHOLD = 75.0`). -/
def TEMP_LOW_THRESHOLD : ℚ := 75

/-- Humidity low threshold from src/common.py (`HUMIDITY_LOW_THRESHOLD = 75.0`). -/
def HUMIDITY_LOW_THRESHOLD : ℚ := 75

/-- Humidity high threshold from src/common.py (`HUMIDITY_HIGH_THRESHOLD = 95.0`). -/
def HUMIDITY_HIGH_THRESHOLD : ℚ := 95

/-- Temperature calibration offset from src/common.py (`TEMP_OFFSET_F = -1.0`). -/
def TEMP_OFFSET_F : ℚ := -1

/-- Notification cooldown from src/common.py (`NOTIF_COOLDOWN = 300`). -/
def NOTIF_COOLDOWN : ℚ := 300

/-- The kind of alert produced by a branch of `check_alert`; stands for the
pair (alert_message, lcd_alert) of that branch, with the formatted numeric
message abstracted to its kind. -/
inductive AlertKind where
  | highTemp
  | lowTemp
  | highHumidity
  | lowHumidity
deriving DecidableEq, Repr

/-- The constant 16-char LCD text returned by each `check_alert` branch in
src/common.py. -/
def lcd_alert_text : AlertKind → String
  | .highTemp => "Alert: High temp"
  | .lowTemp => "Alert: Low temp"
  | .highHumidity => "Alert: High hum"
  | .lowHumidity => "Alert: Low humid"

/-- Function `check_alert(temp_f, humidity)` from src/common.py.  The Python function
returns a triple `(alert_triggered, alert_message, lcd_alert)`; `none` here
stands for the triple `(False, None, None)` and `some k` for the triple
`(True, message-of-k, lcd_alert_text k)`.  The branch order is exactly the
source: high temp, low temp, then (only when humidity is not None) high
humidity, low humidity. -/
def check_alert (temp_f humidity : Option ℚ) : Option AlertKind :=
  match temp_f with
  | none => none
  | some t =>
    if t > TEMP_HIGH_THRESHOLD then some .highTemp
    else if t < TEMP_LOW_THRESHOLD then some .lowTemp
    else
      match humidity with
      | none => none
      | some h =>
        if h > HUMIDITY_HIGH_THRESHOLD then some .highHumidity
        else if h < HUMIDITY_LOW_THRESHOLD then some .lowHumidity
        else none

/-- Function `compute_alert(temp_f, humidity)` from src/api.py: runs `check_alert`
and stores the alert message when triggered, else None.  Under the message
abstraction this is the `check_alert` result itself. -/
def compute_alert (temp_f humidity : Option ℚ) : Option AlertKind :=
  check_alert temp_f humidity

/-- Function `should_buzz(alert_triggered, alert_message, current_time)` from
src/client.py, with the module globals `BUZZ_COOLDOWN` and `last_buzz_time`
made explicit parameters.  Returns False when no alert; otherwise fires
exactly when `current_time - last_buzz_time >= BUZZ_COOLDOWN`. -/
def should_buzz (BUZZ_COOLDOWN last_buzz_time : ℚ) (alert_triggered : Bool)
    (alert_message : Option AlertKind) (current_time : ℚ) : Bool :=
  if !alert_triggered then false
  else
    let time_since_last_buzz := current_time - last_buzz_time
    if time_since_last_buzz ≥ BUZZ_COOLDOWN then true else false

/-- The buzz decision of one iteration of `main` in src/client.py
(lines 205-221): when `should_buzz` is true the buzzer sounds and
`last_buzz_time` is set to `current_time`; otherwise the timer is left
alone.  Returns (buzzer_active, new last_buzz_time). -/
def main_buzz_step (BUZZ_COOLDOWN last_buzz_time : ℚ) (alert_triggered : Bool)
    (alert_message : Option AlertKind) (current_time : ℚ) : Bool × ℚ :=
  if should_buzz BUZZ_COOLDOWN last_buzz_time alert_triggered alert_message current_time then
    (true, current_time)
  else
    (false, last_buzz_time)

/-- C1: for every temp_f above the high threshold and every humidity
(including null), `check_alert` returns the HighTemp alert; and a non-null
in-range-high temp that is below the low threshold yields LowTemp
regardless of humidity — temperature checks precede humidity checks, and
the `Option AlertKind` result carries at most one alert. -/
theorem check_alert_temp_precedence :
    (∀ (t : ℚ) (h : Option ℚ), t > TEMP_HIGH_THRESHOLD →
      check_alert (some t) h = some AlertKind.highTemp) ∧
    (∀ (t : ℚ) (h : Option ℚ), ¬ t > TEMP_HIGH_THRESHOLD → t < TEMP_LOW_THRESHOLD →
      check_alert (some t) h = some AlertKind.lowTemp) := by
  constructor
  · intro t h ht
    simp [check_alert, ht]
  · intro t h ht1 ht2
    simp [check_alert, ht1, ht2]

/-- Witness for C1: temp 90 with humidity 99 (itself above the humidity
high threshold) still classifies as HighTemp. -/
theorem check_alert_temp_precedence_witness :
    check_alert (some 90) (some 99) = some AlertKind.highTemp :=
  check_alert_temp_precedence.1 90 (some 99) (by norm_num [TEMP_HIGH_THRESHOLD])

/-- C8: a null temperature suppresses all alerting: `check_alert(None, h)`
is the no-alert result for every humidity, null included. -/
theorem check_alert_null_temp (h : Option ℚ) : check_alert none h = none := rfl

/-- C10: with a null humidity, an in-range temperature produces no alert at
all, and no temperature whatsoever can produce a humidity alert: both
humidity comparisons sit under the `humidity is not None` guard. -/
theorem check_alert_null_humidity :
    (∀ t : ℚ, TEMP_LOW_THRESHOLD ≤ t → t ≤ TEMP_HIGH_THRESHOLD →
      check_alert (some t) none = none) ∧
    (∀ t : ℚ, check_alert (some t) none ≠ some AlertKind.highHumidity ∧
      check_alert (some t) none ≠ some AlertKind.lowHumidity) := by
  constructor
  · intro t h1 h2
    simp [check_alert, not_lt.mpr h2, not_lt.mpr h1]
  · intro t
    simp only [check_alert]
    split_ifs <;> simp

/-- Witness for C10: temp 80 with null humidity yields no alert. -/
theorem check_alert_null_humidity_witness :
    check_alert (some 80) none = none :=
  check_alert_null_humidity.1 80
    (by norm_num [TEMP_LOW_THRESHOLD]) (by norm_num [TEMP_HIGH_THRESHOLD])

/-- C2: with cooldown interval 300 and last firing at time 0, an active
alert at time 299 does not actuate and leaves the timer alone; at time 300
it actuates and resets the timer to 300; and in general, whenever
`should_buzz` fires with interval 300, at least 300 has elapsed since the
last firing. -/
theorem cooldown_behaviour :
    main_buzz_step 300 0 true (some AlertKind.highTemp) 299 = (false, 0) ∧
    main_buzz_step 300 0 true (some AlertKind.highTemp) 300 = (true, 300) ∧
    (∀ last t : ℚ, ∀ msg : Option AlertKind,
      should_buzz 300 last true msg t = true → t - last ≥ 300) := by
  refine ⟨by norm_num [main_buzz_step, should_buzz], by norm_num [main_buzz_step, should_buzz], ?_⟩
  intro last t msg hfire
  by_contra hlt
  simp [should_buzz, hlt] at hfire

/-- Witness for the general conjunct of C2: firing at time 300 after a last buzz
at time 0 indeed means at least 300 elapsed. -/
theorem cooldown_behaviour_witness : (300 : ℚ) - 0 ≥ 300 :=
  cooldown_behaviour.2.2 0 300 (some AlertKind.highTemp)
    (by norm_num [should_buzz])

/-! ## Sensor reader loop (src/api.py) -/

/-- Outcome of one raw read attempt (`sensor.temperature` together with
`sensor.relative_humidity` inside the inner try).  `ioError` is an `OSError`
caught by the retry loop; `otherError` is any other exception, which the
inner `except OSError` does not catch and which therefore propagates
straight to the outer handler. -/
inductive AttemptOutcome where
  | success (temp_c humidity : ℚ)
  | ioError
  | otherError (msg : String)
deriving DecidableEq, Repr

/-- The body of `for attempt in range(max_retries)` in `reader_loop`
(src/api.py): a successful attempt breaks out with the values; a non-OSError
exception propagates at once; an `OSError` sleeps and retries unless this
was the last attempt, in which case it is re-raised. -/
def retry_read (f : ℕ → AttemptOutcome) : List ℕ → Except String (ℚ × ℚ)
  | [] => .error "NameError"
  | attempt :: rest =>
    match f attempt with
    | .success temp_c humidity => .ok (temp_c, humidity)
    | .otherError msg => .error msg
    | .ioError => if rest.isEmpty then .error "OSError" else retry_read f rest

/-- Constant `max_retries = 3` in `reader_loop` (src/api.py). -/
def max_retries : ℕ := 3

/-- The whole retry loop of one `reader_loop` cycle: runs the attempt body
over `range(max_retries)`. -/
def read_with_retries (f : ℕ → AttemptOutcome) : Except String (ℚ × ℚ) :=
  retry_read f (List.range max_retries)

/-- Number of raw read attempts (loop iterations) actually performed by the
retry loop before it breaks, raises or propagates. -/
def retry_attempts (f : ℕ → AttemptOutcome) : List ℕ → ℕ
  | [] => 0
  | attempt :: rest =>
    match f attempt with
    | .success _ _ => 1
    | .otherError _ => 1
    | .ioError => if rest.isEmpty then 1 else 1 + retry_attempts f rest

/-- Round-half-to-even of a rational to an integer, the rounding mode
of the Python builtin round. -/
def round_half_even (x : ℚ) : ℤ :=
  if Int.fract x < 1 / 2 then ⌊x⌋
  else if 1 / 2 < Int.fract x then ⌊x⌋ + 1
  else if 2 ∣ ⌊x⌋ then ⌊x⌋ else ⌊x⌋ + 1

/-- The Python builtin `round(x, ndigits)` on the exact-rational model of floats. -/
def pyRound (x : ℚ) (ndigits : ℕ) : ℚ :=
  (round_half_even (x * 10 ^ ndigits) : ℚ) / 10 ^ ndigits

/-- The shared `state` dict of src/api.py, with one `{device}_on` key per
configured device (heat, pump). -/
structure SystemState where
  temperature_c : Option ℚ
  temperature_f : Option ℚ
  humidity : Option ℚ
  timestamp_iso : Option String
  error : Option String
  last_read_ok : Bool
  alert : Option AlertKind
  heat_on : Bool
  pump_on : Bool
deriving DecidableEq, Repr

/-- The initial value of the `state` dict in src/api.py. -/
def initial_state : SystemState :=
  { temperature_c := none, temperature_f := none, humidity := none,
    timestamp_iso := none, error := none, last_read_ok := false,
    alert := none, heat_on := false, pump_on := false }

/-- One atomic mutation of the shared `state` dict, one per Python
statement that writes it: the single `state.update({...})` call of the
success path, the separate `state["alert"] = ...` assignment, the two
assignments of the failure path, and the `state[f"{device}_on"] = ...`
assignment of the control handler. -/
inductive StateAction where
  | updateReadings (temperature_c temperature_f humidity : ℚ) (timestamp_iso : String)
  | setAlert (a : Option AlertKind)
  | setError (e : String)
  | setReadOk (b : Bool)
  | setDeviceFlag (device : String) (value : Bool)
deriving DecidableEq, Repr

/-- Assignment of the device flag key for the two configured devices. -/
def set_flag (s : SystemState) (device : String) (value : Bool) : SystemState :=
  if device = "heat" then { s with heat_on := value }
  else if device = "pump" then { s with pump_on := value }
  else s

/-- Semantics of one atomic state mutation.  `updateReadings` carries
exactly the keys of the `state.update({...})` call in `reader_loop`,
including `error: None` and `last_read_ok: True`. -/
def applyAction (s : SystemState) : StateAction → SystemState
  | .updateReadings tc tf hu ts =>
    { s with temperature_c := some tc, temperature_f := some tf,
             humidity := some hu, timestamp_iso := some ts,
             error := none, last_read_ok := true }
  | .setAlert a => { s with alert := a }
  | .setError e => { s with error := some e }
  | .setReadOk b => { s with last_read_ok := b }
  | .setDeviceFlag d v => set_flag s d v

/-- The sequence of shared-state writes performed by one iteration of the
`while True` body of `reader_loop` (src/api.py), given the attempt outcomes
`f` and the timestamp `ts` of the cycle.  On success: the single `state.update`
with the rounded values, then the separate alert assignment computed from
the unrounded values; on failure: the error assignment then the
`last_read_ok` assignment.  The error string models
`f"read_error: {type(e).__name__}: {e}"` by the exception name. -/
def cycle_actions (f : ℕ → AttemptOutcome) (ts : String) : List StateAction :=
  match read_with_retries f with
  | .ok (temp_c, humidity) =>
    let temp_f := temp_c * 9 / 5 + 32 + TEMP_OFFSET_F
    [.updateReadings (pyRound temp_c 2) (pyRound temp_f 2) (pyRound humidity 2) ts,
     .setAlert (compute_alert (some temp_f) (some humidity))]
  | .error msg =>
    [.setError ("read_error: " ++ msg), .setReadOk false]

/-- The net effect of one `reader_loop` cycle on the shared state. -/
def reader_cycle (f : ℕ → AttemptOutcome) (ts : String) (s : SystemState) : SystemState :=
  (cycle_actions f ts).foldl applyAction s

/-- C3: a failed poll cycle (retries exhausted or any other read exception)
only sets `error` to a descriptive string and `last_read_ok` to false; the
prior reading fields, alert and device flags keep their previous values. -/
theorem reader_cycle_failure_frame
    (f : ℕ → AttemptOutcome) (ts : String) (s : SystemState) (msg : String)
    (hfail : read_with_retries f = .error msg) :
    reader_cycle f ts s =
      { s with error := some ("read_error: " ++ msg), last_read_ok := false } := by
  simp [reader_cycle, cycle_actions, hfail, applyAction]

/-- The all-attempts-fail read sequence. -/
def all_io_fail : ℕ → AttemptOutcome := fun _ => .ioError

/-- A state holding a previous good reading, used to exercise the failure
frame condition. -/
def stale_state : SystemState :=
  { temperature_c := some 31, temperature_f := some (434 / 5), humidity := some 50,
    timestamp_iso := some "t1", error := none, last_read_ok := true,
    alert := some .highTemp, heat_on := true, pump_on := false }

/-- Witness for C3: after three failed attempts on a state with a good
reading, only the error and the read-ok flag change. -/
theorem reader_cycle_failure_frame_witness :
    reader_cycle all_io_fail "t2" stale_state =
      { stale_state with error := some "read_error: OSError", last_read_ok := false } :=
  reader_cycle_failure_frame all_io_fail "t2" stale_state "OSError" rfl

/-- C4: per cycle the retry loop makes at most 3 raw read attempts; when no
attempt raises a non-I/O exception, the read of the cycle errors exactly when
all 3 attempts fail with an I/O error, and the first successful attempt
ends the retrying with the values of that attempt. -/
theorem read_with_retries_spec (f : ℕ → AttemptOutcome)
    (hno : ∀ i msg, f i ≠ .otherError msg) :
    retry_attempts f (List.range max_retries) ≤ 3 ∧
    ((∃ msg, read_with_retries f = .error msg) ↔
      (f 0 = .ioError ∧ f 1 = .ioError ∧ f 2 = .ioError)) ∧
    (∀ tc hu, f 0 = .success tc hu →
      read_with_retries f = .ok (tc, hu) ∧
      retry_attempts f (List.range max_retries) = 1) ∧
    (∀ tc hu, f 0 = .ioError → f 1 = .success tc hu →
      read_with_retries f = .ok (tc, hu) ∧
      retry_attempts f (List.range max_retries) = 2) ∧
    (∀ tc hu, f 0 = .ioError → f 1 = .ioError → f 2 = .success tc hu →
      read_with_retries f = .ok (tc, hu) ∧
      retry_attempts f (List.range max_retries) = 3) := by
  have hr : List.range max_retries = [0, 1, 2] := rfl
  have key : ∀ i, f i = .ioError ∨ ∃ tc hu, f i = .success tc hu := by
    intro i
    cases hci : f i with
    | success tc hu => exact Or.inr ⟨tc, hu, rfl⟩
    | ioError => exact Or.inl rfl
    | otherError m => exact absurd hci (hno i m)
  rcases key 0 with hc0 | ⟨tc0, hu0, hc0⟩
  · rcases key 1 with hc1 | ⟨tc1, hu1, hc1⟩
    · rcases key 2 with hc2 | ⟨tc2, hu2, hc2⟩ <;>
        refine ⟨?_, ?_, ?_, ?_, ?_⟩ <;>
          simp [read_with_retries, retry_read, retry_attempts, hr, hc0, hc1, hc2]
    · refine ⟨?_, ?_, ?_, ?_, ?_⟩ <;>
        simp [read_with_retries, retry_read, retry_attempts, hr, hc0, hc1]
  · refine ⟨?_, ?_, ?_, ?_, ?_⟩ <;>
      simp [read_with_retries, retry_read, retry_attempts, hr, hc0]

/-- Witness for C4: with all three attempts failing, the read of the cycle
errors out. -/
theorem read_with_retries_spec_witness :
    ∃ msg, read_with_retries all_io_fail = Except.error msg :=
  (read_with_retries_spec all_io_fail
    (by intro i msg h; simp [all_io_fail] at h)).2.1.mpr ⟨rfl, rfl, rfl⟩

/-! ## Device control handler (src/api.py `set_device`) -/

/-- The `DEVICES` table of src/common.py restricted to the relay pins,
which are the only pins `set_device` drives (LEDs belong to client.py). -/
def DEVICES : List (String × ℕ) := [("heat", 27), ("pump", 23)]

/-- The configured device names (the keys of `DEVICES`). -/
def device_names : List String := DEVICES.map Prod.fst

/-- The GPIO driver state: current output level per pin, plus the set of
pins on which a hardware write raises. -/
structure Gpio where
  levels : List (ℕ × Bool)
  failing : List ℕ
deriving DecidableEq, Repr

/-- Drive one pin to a level in the pin-level table (overwrite in place,
append if absent). -/
def set_pin : List (ℕ × Bool) → ℕ → Bool → List (ℕ × Bool)
  | [], p, v => [(p, v)]
  | (q, w) :: rest, p, v =>
    if q = p then (p, v) :: rest else (q, w) :: set_pin rest p v

/-- Primitive `GPIO.output(pin, level)`: raises on a failing pin (caught by the
except clause of the handler), otherwise drives the pin. -/
def gpio_output (g : Gpio) (pin : ℕ) (level : Bool) : Except String Gpio :=
  if pin ∈ g.failing then .error "hardware write failed"
  else .ok { g with levels := set_pin g.levels pin level }

/-- The Python method `str.lower()` on the ASCII state strings: character-wise
lowercasing. -/
def str_lower (s : String) : String := String.mk (s.data.map Char.toLower)

/-- The HTTP outcome of the `set_device` handler: a 200 success carrying
the new flag value, a 400 validation error, or a 500 hardware error. -/
inductive CtrlResult where
  | success (flag : Bool)
  | clientError (msg : String)
  | serverError (msg : String)
deriving DecidableEq, Repr

/-- HTTP status code of a handler outcome. -/
def statusCode : CtrlResult → ℕ
  | .success _ => 200
  | .clientError _ => 400
  | .serverError _ => 500

/-- Handler `set_device(device)` from src/api.py.  `data` models
`request.get_json()`: `none` for an absent/falsy body, `some none` for a
body without a `state` field, `some (some st)` for `{"state": st}`.  The
checks run in source order: unknown device, missing body/field, invalid
state value after lowercasing; then the relay write inside `try`, with the
flag assignment only after the write, and the `except` producing a 500
without touching the shared state. -/
def set_device (device : String) (data : Option (Option String))
    (sys : SystemState) (g : Gpio) : SystemState × Gpio × CtrlResult :=
  if device ∉ device_names then
    (sys, g, .clientError "Invalid device")
  else
    match data with
    | none => (sys, g, .clientError "Missing state field in request body")
    | some none => (sys, g, .clientError "Missing state field in request body")
    | some (some st) =>
      let requested_state := str_lower st
      if requested_state ∉ (["on", "off"] : List String) then
        (sys, g, .clientError "State must be on or off")
      else
        let relay := (List.lookup device DEVICES).getD 0
        if requested_state = "on" then
          match gpio_output g relay true with
          | .ok g2 => (set_flag sys device true, g2, .success true)
          | .error e =>
            (sys, g, .serverError ("Failed to set " ++ device ++ " state: " ++ e))
        else
          match gpio_output g relay false with
          | .ok g2 => (set_flag sys device false, g2, .success false)
          | .error e =>
            (sys, g, .serverError ("Failed to set " ++ device ++ " state: " ++ e))

/-- C5: a control request is rejected with status 400 exactly when the
device is not configured, the body carries no state field, or the
lowercased state value is neither on nor off; any request passing
validation reaches the hardware write, whose outcome (500 exactly on a
failing relay pin) is the only remaining error source. -/
theorem set_device_validation (device : String) (data : Option (Option String))
    (sys : SystemState) (g : Gpio) :
    (statusCode (set_device device data sys g).2.2 = 400 ↔
      (device ∉ device_names ∨ data = none ∨ data = some none ∨
        ∃ st, data = some (some st) ∧ str_lower st ≠ "on" ∧ str_lower st ≠ "off")) ∧
    (statusCode (set_device device data sys g).2.2 ≠ 400 →
      (statusCode (set_device device data sys g).2.2 = 500 ↔
        (List.lookup device DEVICES).getD 0 ∈ g.failing)) := by
  by_cases hdev : device ∈ device_names
  · rcases data with _ | _ | st
    · simp [set_device, hdev, statusCode]
    · simp [set_device, hdev, statusCode]
    · by_cases hon : str_lower st = "on"
      · by_cases hfail : (List.lookup device DEVICES).getD 0 ∈ g.failing
        · simp [set_device, hdev, hon, gpio_output, hfail, statusCode]
        · simp [set_device, hdev, hon, gpio_output, hfail, statusCode]
      · by_cases hoff : str_lower st = "off"
        · by_cases hfail : (List.lookup device DEVICES).getD 0 ∈ g.failing
          · simp [set_device, hdev, hon, hoff, gpio_output, hfail, statusCode]
          · simp [set_device, hdev, hon, hoff, gpio_output, hfail, statusCode]
        · simp [set_device, hdev, hon, hoff, statusCode]
  · simp [set_device, hdev, statusCode]

/-- Witness for C5: a request for an unconfigured device name is rejected
with status 400. -/
theorem set_device_validation_witness :
    statusCode (set_device "frog" (some (some "on")) initial_state
      { levels := [], failing := [] }).2.2 = 400 :=
  (set_device_validation "frog" (some (some "on")) initial_state
      { levels := [], failing := [] }).1.mpr (Or.inl (by decide))

/-- Driving a pin to a level it was just driven to rewrites the same entry
with the same value. -/
lemma set_pin_idem (l : List (ℕ × Bool)) (p : ℕ) (v : Bool) :
    set_pin (set_pin l p v) p v = set_pin l p v := by
  induction l with
  | nil => simp [set_pin]
  | cons hd rest ih =>
    obtain ⟨q, w⟩ := hd
    by_cases hq : q = p
    · simp [set_pin, hq]
    · simp [set_pin, hq, ih]

/-- Writing the same flag value twice collapses to one write. -/
lemma set_flag_idem (sys : SystemState) (device : String) (v : Bool) :
    set_flag (set_flag sys device v) device v = set_flag sys device v := by
  unfold set_flag
  split_ifs <;> rfl

/-- A pin write does not change the failing-pin set. -/
lemma gpio_output_failing (g g2 : Gpio) (pin : ℕ) (level : Bool)
    (h : gpio_output g pin level = .ok g2) : g2.failing = g.failing := by
  unfold gpio_output at h
  by_cases hf : pin ∈ g.failing
  · rw [if_pos hf] at h
    cases h
  · rw [if_neg hf] at h
    rw [Except.ok.injEq] at h
    rw [← h]

/-- C6: for a configured device and a valid (case-insensitive) state value,
when the relay write succeeds, repeating the identical request returns the
same flag value and leaves the device flag and the physical pin level as
after the first request, with no error on the second application. -/
theorem set_device_idempotent (device st : String) (sys : SystemState) (g : Gpio)
    (hdev : device ∈ device_names)
    (hval : str_lower st = "on" ∨ str_lower st = "off")
    (hok : (List.lookup device DEVICES).getD 0 ∉ g.failing) :
    (∃ v, (set_device device (some (some st)) sys g).2.2 = .success v) ∧
    set_device device (some (some st))
        (set_device device (some (some st)) sys g).1
        (set_device device (some (some st)) sys g).2.1 =
      set_device device (some (some st)) sys g := by
  rcases hval with hon | hoff
  · have hoffne : str_lower st ≠ "off" := by rw [hon]; decide
    constructor
    · simp [set_device, hdev, hon, gpio_output, hok]
    · simp [set_device, hdev, hon, gpio_output, hok, set_pin_idem, set_flag_idem]
  · have honne : str_lower st ≠ "on" := by rw [hoff]; decide
    constructor
    · simp [set_device, hdev, hoff, honne, gpio_output, hok]
    · simp [set_device, hdev, hoff, honne, gpio_output, hok, set_pin_idem, set_flag_idem]

/-- A fresh GPIO table with no failing pins. -/
def gpio_ok : Gpio := { levels := [], failing := [] }

/-- Witness for C6: turning heat ON twice from the initial state succeeds
and the second application changes nothing. -/
theorem set_device_idempotent_witness :
    (∃ v, (set_device "heat" (some (some "ON")) initial_state gpio_ok).2.2 =
      CtrlResult.success v) ∧
    set_device "heat" (some (some "ON"))
        (set_device "heat" (some (some "ON")) initial_state gpio_ok).1
        (set_device "heat" (some (some "ON")) initial_state gpio_ok).2.1 =
      set_device "heat" (some (some "ON")) initial_state gpio_ok :=
  set_device_idempotent "heat" "ON" initial_state gpio_ok
    (by decide) (Or.inl (by decide)) (by decide)

/-- C7: for a valid control request whose relay write fails, the handler
returns a 500 and both the shared state (in particular the device flag)
and the pin levels keep their prior values. -/
theorem set_device_hw_failure (device st : String) (sys : SystemState) (g : Gpio)
    (hdev : device ∈ device_names)
    (hval : str_lower st = "on" ∨ str_lower st = "off")
    (hfail : (List.lookup device DEVICES).getD 0 ∈ g.failing) :
    (set_device device (some (some st)) sys g).1 = sys ∧
    (set_device device (some (some st)) sys g).2.1 = g ∧
    statusCode (set_device device (some (some st)) sys g).2.2 = 500 := by
  rcases hval with hon | hoff
  · simp [set_device, hdev, hon, gpio_output, hfail, statusCode]
  · have honne : str_lower st ≠ "on" := by rw [hoff]; decide
    simp [set_device, hdev, hoff, honne, gpio_output, hfail, statusCode]

/-- A GPIO table on which the heat relay pin write raises. -/
def gpio_heat_broken : Gpio := { levels := [], failing := [27] }

/-- Witness for C7: a valid heat ON request against a failing relay yields
a 500 with state and pins untouched. -/
theorem set_device_hw_failure_witness :
    (set_device "heat" (some (some "on")) initial_state gpio_heat_broken).1 =
      initial_state ∧
    (set_device "heat" (some (some "on")) initial_state gpio_heat_broken).2.1 =
      gpio_heat_broken ∧
    statusCode
      (set_device "heat" (some (some "on")) initial_state gpio_heat_broken).2.2 = 500 :=
  set_device_hw_failure "heat" "on" initial_state gpio_heat_broken
    (by decide) (Or.inl (by decide)) (by decide)

/-! ## Snapshot consistency under interleaving (src/api.py `reader_loop`
and `get_sensor`)

The reader thread writes the shared dict with two separate statements per
successful cycle (`state.update({...})` then `state["alert"] = ...`), and
the Flask handler serialises the dict concurrently.  Each Python statement
is modelled as one atomic `StateAction`; a reader snapshot may occur after
any number `k` of the actions of a cycle. -/

/-- The reading fields written together by the single `state.update` call
of a successful cycle. -/
structure ReadingFields where
  temperature_c : Option ℚ
  temperature_f : Option ℚ
  humidity : Option ℚ
  timestamp_iso : Option String
deriving DecidableEq, Repr

/-- The reading-field block of a state snapshot. -/
def readingOf (s : SystemState) : ReadingFields :=
  { temperature_c := s.temperature_c, temperature_f := s.temperature_f,
    humidity := s.humidity, timestamp_iso := s.timestamp_iso }

/-- The snapshot a concurrent `GET /sensor` reader takes after the first
`k` atomic writes of an action list. -/
def observe (s : SystemState) (acts : List StateAction) (k : ℕ) : SystemState :=
  (acts.take k).foldl applyAction s

/-- A flag write never touches the reading block. -/
lemma readingOf_set_flag (s : SystemState) (d : String) (v : Bool) :
    readingOf (set_flag s d v) = readingOf s := by
  unfold set_flag
  split_ifs <;> rfl

/-- Reading-block integrity over any action list: the block of the final
state is the initial block or the block of one `updateReadings` action in
the list — never a mixture. -/
lemma readingOf_foldl (l : List StateAction) :
    ∀ s : SystemState,
      readingOf (l.foldl applyAction s) = readingOf s ∨
      ∃ tc tf hu ts, StateAction.updateReadings tc tf hu ts ∈ l ∧
        readingOf (l.foldl applyAction s) =
          { temperature_c := some tc, temperature_f := some tf,
            humidity := some hu, timestamp_iso := some ts } := by
  induction l with
  | nil =>
    intro s
    exact Or.inl rfl
  | cons a rest ih =>
    intro s
    rcases ih (applyAction s a) with heq | ⟨tc, tf, hu, ts, hmem, heq⟩
    · cases a with
      | updateReadings tc tf hu ts =>
        right
        refine ⟨tc, tf, hu, ts, List.mem_cons_self _ _, ?_⟩
        simp only [List.foldl_cons]
        exact heq
      | setAlert al =>
        left
        simp only [List.foldl_cons]
        exact heq
      | setError e =>
        left
        simp only [List.foldl_cons]
        exact heq
      | setReadOk b =>
        left
        simp only [List.foldl_cons]
        exact heq
      | setDeviceFlag d v =>
        left
        simp only [List.foldl_cons]
        rw [heq]
        exact readingOf_set_flag s d v
    · right
      refine ⟨tc, tf, hu, ts, List.mem_cons_of_mem _ hmem, ?_⟩
      simp only [List.foldl_cons]
      exact heq

/-- First poll cycle of the scenario: 31 C, 50 percent humidity
(temp_f 86.8, above the high threshold). -/
def cycle1_read : ℕ → AttemptOutcome := fun _ => .success 31 50

/-- Second poll cycle of the scenario: 26 C, 80 percent humidity
(temp_f 77.8, no alert). -/
def cycle2_read : ℕ → AttemptOutcome := fun _ => .success 26 80

/-- The shared state after the first cycle completed. -/
def state_after_cycle1 : SystemState := reader_cycle cycle1_read "t1" initial_state

/-- C9 counterexample: a snapshot taken between the `state.update` write of
a cycle and its separate alert write carries the temperature of the second
cycle together with the alert of the first cycle — a mix of fields from two different
update cycles, which the claim says no reader ever observes. -/
theorem snapshot_mixes_cycles :
    (observe state_after_cycle1 (cycle_actions cycle2_read "t2") 1).temperature_f =
      (reader_cycle cycle2_read "t2" state_after_cycle1).temperature_f ∧
    (observe state_after_cycle1 (cycle_actions cycle2_read "t2") 1).temperature_f ≠
      state_after_cycle1.temperature_f ∧
    (observe state_after_cycle1 (cycle_actions cycle2_read "t2") 1).alert =
      state_after_cycle1.alert ∧
    state_after_cycle1.alert ≠
      (reader_cycle cycle2_read "t2" state_after_cycle1).alert := by
  have hr : List.range max_retries = [0, 1, 2] := rfl
  have h1 : state_after_cycle1 =
      { temperature_c := some 31, temperature_f := some (434 / 5),
        humidity := some 50, timestamp_iso := some "t1", error := none,
        last_read_ok := true, alert := some .highTemp,
        heat_on := false, pump_on := false } := by
    norm_num [state_after_cycle1, reader_cycle, cycle_actions, cycle1_read,
      read_with_retries, retry_read, hr, pyRound, round_half_even, Int.fract,
      compute_alert, check_alert, TEMP_OFFSET_F, TEMP_HIGH_THRESHOLD,
      applyAction, initial_state]
  have h2 : cycle_actions cycle2_read "t2" =
      [.updateReadings 26 (389 / 5) 80 "t2", .setAlert none] := by
    norm_num [cycle_actions, cycle2_read, read_with_retries, retry_read, hr,
      pyRound, round_half_even, Int.fract, compute_alert, check_alert,
      TEMP_OFFSET_F, TEMP_HIGH_THRESHOLD, TEMP_LOW_THRESHOLD,
      HUMIDITY_HIGH_THRESHOLD, HUMIDITY_LOW_THRESHOLD]
  refine ⟨?_, ?_, ?_, ?_⟩ <;>
    simp [reader_cycle, observe, h1, h2, applyAction] <;> norm_num

/-- C9 amended: across all interleavings the reading block is never torn —
the reading fields of every snapshot are the initial ones or those of one
single `state.update` — but the alert lags: a snapshot between a
two writes of a successful cycle pairs the fresh rounded reading with the
previous, untouched alert. -/
theorem snapshot_reading_block_integrity :
    (∀ (s : SystemState) (acts : List StateAction) (k : ℕ),
      readingOf (observe s acts k) = readingOf s ∨
      ∃ tc tf hu ts, StateAction.updateReadings tc tf hu ts ∈ acts.take k ∧
        readingOf (observe s acts k) =
          { temperature_c := some tc, temperature_f := some tf,
            humidity := some hu, timestamp_iso := some ts }) ∧
    (∀ (f : ℕ → AttemptOutcome) (ts : String) (s : SystemState) (tc hu : ℚ),
      read_with_retries f = .ok (tc, hu) →
      (observe s (cycle_actions f ts) 1).alert = s.alert ∧
      readingOf (observe s (cycle_actions f ts) 1) =
        { temperature_c := some (pyRound tc 2),
          temperature_f := some (pyRound (tc * 9 / 5 + 32 + TEMP_OFFSET_F) 2),
          humidity := some (pyRound hu 2), timestamp_iso := some ts }) := by
  constructor
  · intro s acts k
    exact readingOf_foldl (acts.take k) s
  · intro f ts s tc hu hok
    constructor
    · simp [observe, cycle_actions, hok, applyAction]
    · simp [observe, cycle_actions, hok, applyAction, readingOf]

/-- Witness for the amended C9 theorem: in the concrete two-cycle scenario
the mid-cycle snapshot keeps the old alert and carries exactly the block
of the update of the second cycle. -/
theorem snapshot_reading_block_integrity_witness :
    (observe state_after_cycle1 (cycle_actions cycle2_read "t2") 1).alert =
      state_after_cycle1.alert ∧
    readingOf (observe state_after_cycle1 (cycle_actions cycle2_read "t2") 1) =
      { temperature_c := some (pyRound 26 2),
        temperature_f := some (pyRound (26 * 9 / 5 + 32 + TEMP_OFFSET_F) 2),
        humidity := some (pyRound 80 2), timestamp_iso := some "t2" } :=
  snapshot_reading_block_integrity.2 cycle2_read "t2" state_after_cycle1 26 80 rfl

end Hermie
